import Mathlib

/-!
# Recall-Watch ingestion core: shallow embedding and verification

This file embeds the ingestion core of the Recall-Watch repository
(`pipelines/extract.py`, `pipelines/load.py`, `pipelines/flow.py`) as
executable Lean definitions and proves/refutes the frozen claims about it.

Modelling conventions:
* A raw API record (Python `dict` decoded from JSON) is an association list
  `Rec := List (String × String)`; JSON values reaching the key-derivation and
  row-mapping code are strings.  Python dicts have no duplicate keys, so
  theorems about field reordering carry a `Nodup` hypothesis on the keys.
* `r.get(k)` is `pyGet`, returning `Option String` (`none` = absent).
* Python's `a or b` on such optional strings (first truthy operand) is
  `pyOrD` / `pyOr`; truthiness of `None`/`""` is falsity.
* Machine-level pieces (SHA-256) are implemented over `Nat` with explicit
  `% 2 ^ 32`.  Strings are hashed over their UTF-8 bytes, as in
  `s.encode("utf-8")`.
* The PostgreSQL table touched by `_upsert` is a `List ρ` of rows together
  with an identity-key projection; `ON CONFLICT (pk) DO UPDATE SET <all
  non-key cols> = EXCLUDED.<col>` is row replacement, applied per input row
  in order.
* The wall clock (`datetime.utcnow()`) and the network are passed in as
  explicit parameters.
-/

/-- A raw record: JSON object decoded to an ordered field list.  Python dict
semantics (unique keys) are imposed through `Nodup` hypotheses where the
order matters. -/
abbrev Rec := List (String × String)

/-- `r.get(k)`: first binding of `k`, `none` when absent. -/
def pyGet (r : Rec) (k : String) : Option String :=
  (List.find? (fun p => p.1 = k) r).map Prod.snd

/-- `k in r` (Python key-membership test). -/
def hasKey (r : Rec) (k : String) : Bool :=
  (pyGet r k).isSome

/-- Python `a or b` where `a` is an optional string: returns `a` unless it is
`None` or `""` (falsy). -/
def pyOr (a b : Option String) : Option String :=
  match a with
  | none => b
  | some s => if s = "" then b else some s

/-- Python `a or b` with a string default `b` (the trailing `or ""` of the
lookup chains in `load.py`). -/
def pyOrD (a : Option String) (b : String) : String :=
  match a with
  | none => b
  | some s => if s = "" then b else s

/-- Python truthiness of an optional string (`if not x` is its negation). -/
def pyTruthy (a : Option String) : Bool :=
  match a with
  | none => false
  | some s => s ≠ ""

theorem pyOrD_assoc (a b : Option String) (c : String) :
    pyOrD (pyOr a b) c = pyOrD a (pyOrD b c) := by
  cases a with
  | none => rfl
  | some s =>
    by_cases h : s = "" <;> simp [pyOr, pyOrD, h]

example : pyGet [("a", "1"), ("b", "2")] "b" = some "2" := by decide
example : pyOrD (pyGet [("a", "")] "a") "z" = "z" := by decide

/-!
## Dates and `_parse_date` (`load.py`, lines 49-70)
-/

/-- A calendar date (`datetime.date`). -/
structure Date where
  year : Nat
  month : Nat
  day : Nat
deriving DecidableEq

/-- A `datetime.datetime`: a date plus a time of day (the time part is never
inspected by the embedded code; `value.date()` projects it away). -/
structure DateTime where
  toDate : Date
  hour : Nat
  minute : Nat
  second : Nat
deriving DecidableEq

/-- The value domain over which `_parse_date` is invoked: `None`, strings,
numbers, `date` and `datetime` objects. -/
inductive PyVal where
  | vNone : PyVal
  | vStr : String → PyVal
  | vInt : Int → PyVal
  | vDate : Date → PyVal
  | vDateTime : DateTime → PyVal
deriving DecidableEq

/-- Python `s.strip()`: drop leading and trailing whitespace (kernel-reducible
replacement for `String.trim`, which matches it on these inputs). -/
def pyStrip (s : String) : String :=
  String.mk (((s.data.dropWhile Char.isWhitespace).reverse.dropWhile
    Char.isWhitespace).reverse)

/-- Python `s[:n]`: the first `n` characters. -/
def pyTake (s : String) (n : Nat) : String :=
  String.mk (s.data.take n)

/-- Python `s.upper()` (ASCII; both APIs emit ASCII field values). -/
def pyUpper (s : String) : String :=
  String.mk (s.data.map Char.toUpper)

/-- Python `sep.join(parts)`. -/
def pyJoin (sep : String) : List String → String
  | [] => ""
  | [x] => x
  | x :: xs => x ++ sep ++ pyJoin sep xs

/-- `s.split(sep)` for a one-character separator, accumulator form. -/
def splitCharAux (sep : Char) : List Char → List Char → List (List Char)
  | [], acc => [acc.reverse]
  | c :: rest, acc =>
    if c = sep then acc.reverse :: splitCharAux sep rest []
    else splitCharAux sep rest (c :: acc)

/-- Python `s.split(sep)` for a one-character separator. -/
def pySplit (s : String) (sep : Char) : List String :=
  (splitCharAux sep s.data []).map String.mk

/-- Digit string to number (base 10, ASCII digits). -/
def digitsToNat (l : List Char) : Nat :=
  l.foldl (fun n c => 10 * n + (c.toNat - 48)) 0

/-- Left-pad a numeral with zeros, as Python's `%Y`/`%m`/`%d` formatting. -/
def padNum (width n : Nat) : String :=
  let s := toString n
  String.mk (List.replicate (width - s.length) '0') ++ s

/-- `str(d)` for a `datetime.date`: ISO `YYYY-MM-DD`. -/
def dateStr (d : Date) : String :=
  padNum 4 d.year ++ "-" ++ padNum 2 d.month ++ "-" ++ padNum 2 d.day

/-- `str(value)` on the embedded value domain. -/
def pyStr : PyVal → String
  | .vNone => "None"
  | .vStr s => s
  | .vInt n => toString n
  | .vDate d => dateStr d
  | .vDateTime dt =>
      dateStr dt.toDate ++ " " ++ padNum 2 dt.hour ++ ":" ++ padNum 2 dt.minute
        ++ ":" ++ padNum 2 dt.second

/-- Gregorian leap year, as `datetime`. -/
def isLeap (y : Nat) : Bool :=
  (y % 4 = 0 && y % 100 ≠ 0) || y % 400 = 0

/-- Days in a month, as `datetime`. -/
def daysInMonth (y m : Nat) : Nat :=
  if m = 2 then (if isLeap y then 29 else 28)
  else if m = 4 || m = 6 || m = 9 || m = 11 then 30
  else 31

/-- All-ASCII-digits test (the `\d` groups of CPython's `_strptime` regex,
restricted to ASCII digits, which is what both APIs emit). -/
def allDigits (s : String) : Bool :=
  s ≠ "" && s.data.all Char.isDigit

/-- The `%m` group of `strptime`: `1[0-2]|0[1-9]|[1-9]`, i.e. one or two
digits with value 1..12 (never `"0"` or `"00"`). -/
def monthGroup (s : String) : Option Nat :=
  if allDigits s && (s.length = 1 || s.length = 2) then
    let n := digitsToNat s.data
    if 1 ≤ n && n ≤ 12 then some n else none
  else none

/-- The `%d` group of `strptime`: `3[01]|[12]\d|0[1-9]|[1-9]`, i.e. one or two
digits with value 1..31. -/
def dayGroup (s : String) : Option Nat :=
  if allDigits s && (s.length = 1 || s.length = 2) then
    let n := digitsToNat s.data
    if 1 ≤ n && n ≤ 31 then some n else none
  else none

/-- The `%Y` group of `strptime`: exactly four digits. -/
def yearGroup (s : String) : Option Nat :=
  if allDigits s && s.length = 4 then some (digitsToNat s.data) else none

/-- `datetime.strptime(s, "%Y-%m-%d").date()`: full-string match of
`%Y-%m-%d` followed by `datetime`'s range validation (year ≥ 1 and the day
not exceeding the month's length); `none` models the raised `ValueError`. -/
def strptimeYmd (s : String) : Option Date :=
  match pySplit s '-' with
  | [ys, ms, ds] =>
    match yearGroup ys, monthGroup ms, dayGroup ds with
    | some y, some m, some d =>
      if 1 ≤ y && d ≤ daysInMonth y m then some ⟨y, m, d⟩ else none
    | _, _, _ => none
  | _ => none

/-- `_parse_date` (`load.py` 49-70): `None` for `None`; the date itself for a
`date`; the date part for a `datetime`; otherwise `str(value).strip()`,
returning `None` when blank, else a strict `YYYY-MM-DD` parse of the first
ten characters, with any parse failure degraded to `None` (the
`try/except`). Total by construction: no input raises. -/
def parse_date : PyVal → Option Date
  | .vNone => none
  | .vDate d => some d
  | .vDateTime dt => some dt.toDate
  | v =>
    let s := pyStrip (pyStr v)
    if s = "" then none
    else strptimeYmd (pyTake s 10)

example : parse_date (.vStr "2024-03-15T00:00:00.000") = some ⟨2024, 3, 15⟩ := by decide
example : parse_date (.vStr "not-a-date") = none := by decide
example : parse_date (.vStr "  2024-01-02") = some ⟨2024, 1, 2⟩ := by decide
example : parse_date (.vStr "2024-02-30") = none := by decide
example : parse_date (.vStr "2024-2-3") = some ⟨2024, 2, 3⟩ := by decide
example : parse_date (.vStr "0000-01-01") = none := by decide
example : parse_date (.vDate ⟨2020, 5, 6⟩) = some ⟨2020, 5, 6⟩ := by decide

/-!
## SHA-256 (`_sha256_hex`, `load.py` 45-46)

`hashlib.sha256(s.encode("utf-8")).hexdigest()`: FIPS 180-4 SHA-256 over the
UTF-8 bytes of `s`, rendered as lowercase hex.  Words are `Nat` reduced
modulo `2 ^ 32`.
-/

/-- Truncate to a 32-bit word. -/
def w32 (n : Nat) : Nat := n % 4294967296

/-- 32-bit right rotation. -/
def rotr32 (x n : Nat) : Nat := w32 ((x >>> n) ||| (x <<< (32 - n)))

/-- The 64 SHA-256 round constants (FIPS 180-4 §4.2.2). -/
def shaK : List Nat :=
  [1116352408, 1899447441, 3049323471, 3921009573, 961987163,
   1508970993, 2453635748, 2870763221, 3624381080, 310598401,
   607225278, 1426881987, 1925078388, 2162078206, 2614888103,
   3248222580, 3835390401, 4022224774, 264347078, 604807628,
   770255983, 1249150122, 1555081692, 1996064986, 2554220882,
   2821834349, 2952996808, 3210313671, 3336571891, 3584528711,
   113926993, 338241895, 666307205, 773529912, 1294757372,
   1396182291, 1695183700, 1986661051, 2177026350, 2456956037,
   2730485921, 2820302411, 3259730800, 3345764771, 3516065817,
   3600352804, 4094571909, 275423344, 430227734, 506948616,
   659060556, 883997877, 958139571, 1322822218, 1537002063,
   1747873779, 1955562222, 2024104815, 2227730452, 2361852424,
   2428436474, 2756734187, 3204031479, 3329325298]

/-- The SHA-256 initial hash value (FIPS 180-4 §5.3.3). -/
def shaH0 : List Nat :=
  [1779033703, 3144134277, 1013904242, 2773480762,
   1359893119, 2600822924, 528734635, 1541459225]

/-- UTF-8 encoding of one code point (`s.encode("utf-8")`, per character). -/
def utf8Bytes (c : Char) : List Nat :=
  let n := c.toNat
  if n < 0x80 then [n]
  else if n < 0x800 then [0xC0 ||| (n >>> 6), 0x80 ||| (n &&& 0x3F)]
  else if n < 0x10000 then
    [0xE0 ||| (n >>> 12), 0x80 ||| ((n >>> 6) &&& 0x3F), 0x80 ||| (n &&& 0x3F)]
  else
    [0xF0 ||| (n >>> 18), 0x80 ||| ((n >>> 12) &&& 0x3F),
     0x80 ||| ((n >>> 6) &&& 0x3F), 0x80 ||| (n &&& 0x3F)]

/-- UTF-8 byte sequence of a string. -/
def strBytes (s : String) : List Nat := (s.data.map utf8Bytes).flatten

/-- SHA-256 message padding: `0x80`, zeros to 56 mod 64, 8-byte big-endian
bit length. -/
def shaPad (msg : List Nat) : List Nat :=
  let L := msg.length
  let k := (120 - ((L + 1) % 64)) % 64
  let bitLen := 8 * L
  msg ++ [0x80] ++ List.replicate k 0 ++
    [(bitLen >>> 56) % 256, (bitLen >>> 48) % 256, (bitLen >>> 40) % 256,
     (bitLen >>> 32) % 256, (bitLen >>> 24) % 256, (bitLen >>> 16) % 256,
     (bitLen >>> 8) % 256, bitLen % 256]

/-- Split a byte list into 64-byte blocks (`fuel` bounds the recursion; any
`fuel ≥ length` is exact). -/
def chunks64 : Nat → List Nat → List (List Nat)
  | 0, _ => []
  | _, [] => []
  | fuel + 1, l => l.take 64 :: chunks64 fuel (l.drop 64)

/-- Big-endian 4-byte groups to 32-bit words. -/
def bytesToWords : List Nat → List Nat
  | a :: b :: c :: d :: rest =>
    ((a <<< 24) ||| (b <<< 16) ||| (c <<< 8) ||| d) :: bytesToWords rest
  | _ => []

/-- σ0 (FIPS 180-4 §4.1.2). -/
def sSig0 (x : Nat) : Nat := rotr32 x 7 ^^^ rotr32 x 18 ^^^ (x >>> 3)

/-- σ1 (FIPS 180-4 §4.1.2). -/
def sSig1 (x : Nat) : Nat := rotr32 x 17 ^^^ rotr32 x 19 ^^^ (x >>> 10)

/-- Expand the 16 block words into the 64-entry message schedule. -/
def shaSchedule (w16 : List Nat) : List Nat :=
  (List.range 48).foldl
    (fun w _ =>
      let i := w.length
      w ++ [w32 (sSig1 (w.getD (i - 2) 0) + w.getD (i - 7) 0
              + sSig0 (w.getD (i - 15) 0) + w.getD (i - 16) 0)])
    w16

/-- One compression round on the state `[a,b,c,d,e,f,g,h]`. -/
def shaRound (st : List Nat) (kw : Nat × Nat) : List Nat :=
  match st with
  | [a, b, c, d, e, f, g, h] =>
    let S1 := rotr32 e 6 ^^^ rotr32 e 11 ^^^ rotr32 e 25
    let ch := (e &&& f) ^^^ ((e ^^^ 0xffffffff) &&& g)
    let t1 := w32 (h + S1 + ch + kw.1 + kw.2)
    let S0 := rotr32 a 2 ^^^ rotr32 a 13 ^^^ rotr32 a 22
    let maj := (a &&& b) ^^^ (a &&& c) ^^^ (b &&& c)
    let t2 := w32 (S0 + maj)
    [w32 (t1 + t2), a, b, c, w32 (d + t1), e, f, g]
  | st => st

/-- Compress one 64-byte block into the running state. -/
def shaBlock (st : List Nat) (block : List Nat) : List Nat :=
  let w := shaSchedule (bytesToWords block)
  let st' := (shaK.zip w).foldl shaRound st
  (st.zip st').map (fun p => w32 (p.1 + p.2))

/-- SHA-256 digest (32 bytes) of a byte sequence. -/
def sha256Bytes (msg : List Nat) : List Nat :=
  let padded := shaPad msg
  let final := (chunks64 padded.length padded).foldl shaBlock shaH0
  (final.map (fun wd => [(wd >>> 24) % 256, (wd >>> 16) % 256,
    (wd >>> 8) % 256, wd % 256])).flatten

/-- Lowercase hex digit. -/
def hexDigit (n : Nat) : Char :=
  if n < 10 then Char.ofNat (48 + n) else Char.ofNat (87 + n)

/-- Lowercase hex rendering of a byte list (`hexdigest()`). -/
def bytesToHex (l : List Nat) : String :=
  String.mk ((l.map (fun b => [hexDigit (b / 16), hexDigit (b % 16)])).flatten)

/-- `_sha256_hex` (`load.py` 45-46): hex SHA-256 of the UTF-8 encoding. -/
def sha256_hex (s : String) : String := bytesToHex (sha256Bytes (strBytes s))

/-!
## Primary key derivation (`load.py` 77-123)
-/

/-- `recall_pk_from_record` (`load.py` 77-94): prefer the NHTSA campaign id
(`nhtsa_id` / `NHTSA_ID` via Python `or`, trimmed); when that is blank, fall
back to `hash:` + SHA-256 of
`manufacturer(upper)|component(upper)|report_date|subject`. -/
def recall_pk_from_record (r : Rec) : String :=
  let nhtsa_id := pyStrip (pyOrD (pyOr (pyGet r "nhtsa_id") (pyGet r "NHTSA_ID")) "")
  if nhtsa_id ≠ "" then "nhtsa:" ++ nhtsa_id
  else
    let manufacturer := pyUpper (pyStrip (pyOrD (pyOr (pyGet r "manufacturer") (pyGet r "make")) ""))
    let component := pyUpper (pyStrip (pyOrD (pyGet r "component") ""))
    let report_date := pyStrip (pyOrD (pyOr (pyGet r "report_received_date") (pyGet r "report_date")) "")
    let subject := pyStrip (pyOrD (pyGet r "subject") "")
    let base := manufacturer ++ "|" ++ component ++ "|" ++ report_date ++ "|" ++ subject
    "hash:" ++ sha256_hex base

/-- `complaint_pk_from_record` (`load.py` 97-123): prefer the ODI number
(`ODINumber` / `odi_number` / `odiNumber` / `complaint_number` via Python
`or`, trimmed); when that is blank, fall back to `hash:` + SHA-256 of
`make(upper)|model(upper)|year|component(upper)|received|summary`. -/
def complaint_pk_from_record (r : Rec) : String :=
  let odi := pyStrip (pyOrD
    (pyOr (pyOr (pyOr (pyGet r "ODINumber") (pyGet r "odi_number"))
      (pyGet r "odiNumber")) (pyGet r "complaint_number")) "")
  if odi ≠ "" then "odi:" ++ odi
  else
    let make := pyUpper (pyStrip (pyOrD (pyOr (pyGet r "Make") (pyGet r "make")) ""))
    let model := pyUpper (pyStrip (pyOrD (pyOr (pyGet r "Model") (pyGet r "model")) ""))
    let year := pyStrip (pyOrD (pyOr (pyOr (pyGet r "ModelYear") (pyGet r "model_year"))
      (pyGet r "Year")) "")
    let comp := pyUpper (pyStrip (pyOrD (pyOr (pyGet r "Component") (pyGet r "component")) ""))
    let received := pyStrip (pyOrD (pyOr (pyGet r "DateReceived") (pyGet r "date_received")) "")
    let summary := pyStrip (pyOrD (pyOr (pyOr (pyGet r "Summary") (pyGet r "summary"))
      (pyGet r "Description")) "")
    let base := make ++ "|" ++ model ++ "|" ++ year ++ "|" ++ comp ++ "|" ++ received
      ++ "|" ++ summary
    "hash:" ++ sha256_hex base

example : recall_pk_from_record [("nhtsa_id", " 24V123 ")] = "nhtsa:24V123" := by decide
example : complaint_pk_from_record [("odi_number", "11506106")] = "odi:11506106" := by decide

/-!
## Row mapping (`load.py` 130-154, 195-207)
-/

/-- The column list of `raw.recalls` (`RAW_RECALLS_COLS`, `load.py` 195-207). -/
def RAW_RECALLS_COLS : List String :=
  ["recall_pk", "source", "source_id", "make", "model", "model_year",
   "component", "report_date", "source_updated_at", "ingested_at", "raw_payload"]

/-- One mapped `raw.recalls` row: the tuple `map_recall_row` builds, with the
fields named after `RAW_RECALLS_COLS`. -/
structure RecallRow where
  recall_pk : String
  source : String
  source_id : Option String
  make : Option String
  model : Option String
  model_year : Option Nat
  component : Option String
  report_date : Option Date
  source_updated_at : Option String
  ingested_at : Nat
  raw_payload : String
deriving DecidableEq

/-- Adapter: an optional string field value as a `_parse_date` input. -/
def optVal : Option String → PyVal
  | none => .vNone
  | some s => .vStr s

/-- `json.dumps(r)` for a string-valued object (no escape-needing
characters in the embedded inputs). -/
def jsonDumps (r : Rec) : String :=
  "\x7b" ++ pyJoin ", " (r.map (fun p => "\"" ++ p.1 ++ "\": \"" ++ p.2 ++ "\"")) ++ "\x7d"

/-- `map_recall_row` (`load.py` 130-154).  `now` stands for
`datetime.utcnow()`, passed explicitly. -/
def map_recall_row (now : Nat) (r : Rec) : RecallRow :=
  let pk := recall_pk_from_record r
  let manufacturer := pyOr (pyGet r "manufacturer") (pyGet r "make")
  let component := pyGet r "component"
  let nhtsa_id := pyGet r "nhtsa_id"
  let report_date := parse_date (optVal (pyOr (pyGet r "report_received_date")
    (pyGet r "report_date")))
  { recall_pk := pk
    source := "socrata"
    source_id := nhtsa_id
    make := manufacturer
    model := none
    model_year := none
    component := component
    report_date := report_date
    source_updated_at := none
    ingested_at := now
    raw_payload := jsonDumps r }

/-- The value `load_recalls`/`load_complaints` return: `_upsert`'s count,
which is `len(rows)` (`return 0` on the empty batch agrees with it). -/
def load_count {ρ : Type} (rows : List ρ) : Nat := rows.length

/-!
## `_upsert` (`load.py` 227-256)

The statement `INSERT INTO t (cols) VALUES %s ON CONFLICT (conflict_col) DO
UPDATE SET c = EXCLUDED.c` for every non-conflict column `c` replaces, for
each incoming row in order, the stored row carrying the same identity-key
value (the key column itself is unchanged by the update since both sides
hold the conflicting value), and appends rows with fresh keys.  The table is
a `List ρ` with an identity projection `pk`; `execute_values` chunking
(page_size 500) does not alter this row-at-a-time semantics.
-/

/-- Apply one incoming row: replace the stored row with the same key, else
append. -/
def upsertRow {ρ : Type} (pk : ρ → String) (t : List ρ) (row : ρ) : List ρ :=
  if t.any (fun x => pk x = pk row) then
    t.map (fun x => if pk x = pk row then row else x)
  else t ++ [row]

/-- `_upsert`'s effect on the table: the batch applied in order. -/
def upsertAll {ρ : Type} (pk : ρ → String) (t : List ρ) (rows : List ρ) : List ρ :=
  rows.foldl (upsertRow pk) t

/-- `_upsert` (`load.py` 227-256): new table state and returned count. -/
def upsert {ρ : Type} (pk : ρ → String) (t : List ρ) (rows : List ρ) : List ρ × Nat :=
  (upsertAll pk t rows, rows.length)

/-!
## Extraction (`extract.py`)
-/

/-- Candidate date fields (`extract.py` 39-44). -/
def RECALLS_DATE_FIELDS : List String :=
  ["report_received_date", "report_receive_date", "recall_date", "date"]

/-- `PAGE_SIZE` (`extract.py` 46). -/
def PAGE_SIZE : Nat := 1000

/-- `_first_present_field` (`extract.py` 148-152): the first candidate that
is a key of the record. -/
def first_present_field (record : Rec) (candidates : List String) : Option String :=
  candidates.find? (fun f => hasKey record f)

/-- The make predicate of `_build_where_clause` (`extract.py` 163):
`upper({make_field}) LIKE '{make.upper()}%'`, always emitted. -/
def makeBound (make_field make : String) : String :=
  "upper(" ++ make_field ++ ") LIKE '" ++ pyUpper make ++ "%'"

/-- The filter list `_build_where_clause` (`extract.py` 155-168) builds: the
make predicate, then the date lower/upper bounds, each only when both the
date field and the respective bound are truthy. -/
def build_where_filters (make_field make : String)
    (start_date end_date : Option String) (date_field : Option String) :
    List String :=
  [makeBound make_field make]
    ++ (if pyTruthy date_field && pyTruthy start_date then
          [pyOrD date_field "" ++ " >= '" ++ pyOrD start_date "" ++ "'"] else [])
    ++ (if pyTruthy date_field && pyTruthy end_date then
          [pyOrD date_field "" ++ " <= '" ++ pyOrD end_date "" ++ "'"] else [])

/-- `_build_where_clause` (`extract.py` 155-168): the filters joined by
`" AND "`. -/
def build_where_clause (make_field make : String)
    (start_date end_date : Option String) (date_field : Option String) : String :=
  pyJoin " AND " (build_where_filters make_field make start_date end_date date_field)

/-- Field detection of `extract_recalls` (`extract.py` 186-193): `make_field`
defaults to `"make"`, switched to `"manufacturer"` when the probe's first
record has `manufacturer` but not `make`. -/
def detectMakeField (probe : List Rec) : String :=
  match probe with
  | [] => "make"
  | p :: _ => if hasKey p "manufacturer" && !hasKey p "make" then "manufacturer" else "make"

/-- Field detection of `extract_recalls` (`extract.py` 186-193): the date
field is the first present candidate of the probe's first record, `none`
when the probe is empty or no candidate is present. -/
def detectDateField (probe : List Rec) : Option String :=
  match probe with
  | [] => none
  | p :: _ => first_present_field p RECALLS_DATE_FIELDS

/-- The filter list of the full query `extract_recalls` issues
(`extract.py` 174-197), given the probe page it fetched. -/
def extract_recalls_filters (probe : List Rec) (make : String)
    (start_date end_date : Option String) : List String :=
  build_where_filters (detectMakeField probe) make start_date end_date
    (detectDateField probe)

/-- The `$where` clause of the full query `extract_recalls` issues. -/
def extract_recalls_where (probe : List Rec) (make : String)
    (start_date end_date : Option String) : String :=
  build_where_clause (detectMakeField probe) make start_date end_date
    (detectDateField probe)

/-- The pagination loop of `_fetch_socrata` (`extract.py` 89-142).  `source
offset` is the page the API returns at that offset (HTTP transport is
external; a non-success status raises out of the whole fetch and is not
modelled here).  `fuel` bounds the recursion; any `fuel` at least the number
of requests issued is exact. -/
def fetchLoop {α : Type} (source : Nat → List α) (maxPages : Option Nat) :
    Nat → Nat → List α
  | 0, _ => []
  | fuel + 1, offset =>
    let page := source offset
    if page.isEmpty then []
    else
      let nextOffset := offset + PAGE_SIZE
      match maxPages with
      | some m =>
        if m ≤ nextOffset / PAGE_SIZE then page
        else page ++ fetchLoop source maxPages fuel nextOffset
      | none => page ++ fetchLoop source maxPages fuel nextOffset

/-- `_fetch_socrata` (`extract.py` 69-142): collect pages from offset 0. -/
def fetch_socrata {α : Type} (source : Nat → List α) (maxPages : Option Nat)
    (fuel : Nat) : List α :=
  fetchLoop source maxPages fuel 0

/-!
## Orchestration (`flow.py`)
-/

/-- `_env` (`flow.py` 39-41): the environment value unless absent or blank,
else the default. -/
def env_lookup (env : String → Option String) (name : String)
    (default : Option String) : Option String :=
  match env name with
  | none => default
  | some v => if pyStrip v = "" then default else some v

/-- The ingest run report (`flow.py` 57-68), without the wall-clock
`started_at`/`finished_at` stamps. -/
structure Report where
  make : Option String
  start_date : Option String
  end_date : Option String
  recalls_extracted : Nat
  recalls_loaded : Nat
  complaints_extracted : Nat
  complaints_loaded : Nat
  complaints_skipped : Bool
  errors : List String
deriving DecidableEq

/-- Python `int(s)` for strings: optional surrounding whitespace, optional
sign, one or more digits; `none` models the raised `ValueError`. -/
def pyIntParse (s : String) : Option Int :=
  match (pyStrip s).data with
  | '-' :: ds =>
    if ds ≠ [] && ds.all Char.isDigit then some (-(digitsToNat ds : Int)) else none
  | '+' :: ds =>
    if ds ≠ [] && ds.all Char.isDigit then some ((digitsToNat ds : Int)) else none
  | ds =>
    if ds ≠ [] && ds.all Char.isDigit then some ((digitsToNat ds : Int)) else none

/-- `extract_complaints` (`extract.py` 235-260): read the model and year from
the environment, raise `ValueError` (here `Except.error`) when either is
missing or empty, else query the vehicle endpoint (`fetchByVehicle`, the
external `extract_complaints_by_vehicle` transport) with `int(year)`. -/
def extract_complaints (env : String → Option String) (make : String)
    (fetchByVehicle : String → String → Int → List Rec) :
    Except String (List Rec) :=
  match env "RECALLWATCH_MODEL", env "RECALLWATCH_MODEL_YEAR" with
  | some model, some year =>
    if model = "" || year = "" then
      .error "ValueError: extract_complaints requires RECALLWATCH_MODEL and RECALLWATCH_MODEL_YEAR env vars"
    else
      match pyIntParse year with
      | some y => .ok (fetchByVehicle make model y)
      | none => .error "ValueError: invalid literal for int"
  | _, _ =>
    .error "ValueError: extract_complaints requires RECALLWATCH_MODEL and RECALLWATCH_MODEL_YEAR env vars"

/-- `run_ingest` (`flow.py` 51-100).  `recalls` is what `extract_recalls`
returned (network passed in), `now` stands for `datetime.utcnow()`.  The
returned `Bool` records whether execution reached the complaint-extraction
call (`false` on the skip path: no complaint fetch, no complaint load).
`Except.error` models an uncaught exception. -/
def run_ingest (env : String → Option String) (now : Nat) (recalls : List Rec)
    (fetchByVehicle : String → String → Int → List Rec) :
    Except String (Report × Bool) :=
  let make := env_lookup env "RECALLWATCH_MAKE" (some "TESLA")
  let start := env_lookup env "RECALLWATCH_START" (some "2024-01-01")
  let stop := env_lookup env "RECALLWATCH_END" (some "2024-12-31")
  let base : Report :=
    { make := make, start_date := start, end_date := stop
      recalls_extracted := recalls.length
      recalls_loaded := load_count (recalls.map (map_recall_row now))
      complaints_extracted := 0, complaints_loaded := 0
      complaints_skipped := false, errors := [] }
  let model := env_lookup env "RECALLWATCH_MODEL" none
  let model_year := env_lookup env "RECALLWATCH_MODEL_YEAR" none
  if !pyTruthy model || !pyTruthy model_year then
    .ok ({ base with complaints_skipped := true }, false)
  else
    match extract_complaints env (pyOrD make "") fetchByVehicle with
    | .ok cs =>
      .ok ({ base with
              complaints_extracted := cs.length
              complaints_loaded := load_count cs }, true)
    | .error e => .error e

/-!
## Upsert lemmas
-/

theorem any_eq_true_iff_mem_keys {ρ : Type} (pk : ρ → String) (t : List ρ) (row : ρ) :
    (t.any fun x => pk x = pk row) = true ↔ pk row ∈ t.map pk := by
  simp only [List.any_eq_true, List.mem_map, decide_eq_true_eq]

theorem keys_upsertRow_of_mem {ρ : Type} (pk : ρ → String) (t : List ρ) (row : ρ)
    (h : pk row ∈ t.map pk) :
    (upsertRow pk t row).map pk = t.map pk := by
  rw [upsertRow, if_pos ((any_eq_true_iff_mem_keys pk t row).mpr h)]
  rw [List.map_map]
  apply List.map_congr_left
  intro a _
  by_cases ha : pk a = pk row <;> simp [Function.comp, ha]

theorem keys_upsertRow_of_not_mem {ρ : Type} (pk : ρ → String) (t : List ρ) (row : ρ)
    (h : pk row ∉ t.map pk) :
    (upsertRow pk t row).map pk = t.map pk ++ [pk row] := by
  rw [upsertRow, if_neg (fun hc => h ((any_eq_true_iff_mem_keys pk t row).mp hc))]
  simp

theorem length_upsertRow_of_mem {ρ : Type} (pk : ρ → String) (t : List ρ) (row : ρ)
    (h : pk row ∈ t.map pk) :
    (upsertRow pk t row).length = t.length := by
  rw [upsertRow, if_pos ((any_eq_true_iff_mem_keys pk t row).mpr h)]
  exact List.length_map t _

theorem mem_keys_upsertRow {ρ : Type} (pk : ρ → String) (t : List ρ) (row : ρ)
    (a : String) (h : a ∈ t.map pk) : a ∈ (upsertRow pk t row).map pk := by
  by_cases hm : pk row ∈ t.map pk
  · rwa [keys_upsertRow_of_mem pk t row hm]
  · rw [keys_upsertRow_of_not_mem pk t row hm]
    exact List.mem_append_left _ h

theorem self_mem_keys_upsertRow {ρ : Type} (pk : ρ → String) (t : List ρ) (row : ρ) :
    pk row ∈ (upsertRow pk t row).map pk := by
  by_cases hm : pk row ∈ t.map pk
  · rwa [keys_upsertRow_of_mem pk t row hm]
  · rw [keys_upsertRow_of_not_mem pk t row hm]
    simp

theorem nodup_keys_upsertRow {ρ : Type} (pk : ρ → String) (t : List ρ) (row : ρ)
    (h : (t.map pk).Nodup) : ((upsertRow pk t row).map pk).Nodup := by
  by_cases hm : pk row ∈ t.map pk
  · rwa [keys_upsertRow_of_mem pk t row hm]
  · rw [keys_upsertRow_of_not_mem pk t row hm]
    simp [List.nodup_append, h, hm]

theorem mem_keys_upsertAll {ρ : Type} (pk : ρ → String) (rows : List ρ) :
    ∀ (t : List ρ) (a : String), a ∈ t.map pk → a ∈ (upsertAll pk t rows).map pk := by
  induction rows with
  | nil => intro t a h; exact h
  | cons b bs ih =>
    intro t a h
    exact ih (upsertRow pk t b) a (mem_keys_upsertRow pk t b a h)

theorem batch_mem_keys_upsertAll {ρ : Type} (pk : ρ → String) (rows : List ρ) :
    ∀ (t : List ρ) (row : ρ), row ∈ rows → pk row ∈ (upsertAll pk t rows).map pk := by
  induction rows with
  | nil => intro t row h; cases h
  | cons b bs ih =>
    intro t row h
    rcases List.mem_cons.mp h with h | h
    · subst h
      exact mem_keys_upsertAll pk bs (upsertRow pk t row) (pk row)
        (self_mem_keys_upsertRow pk t row)
    · exact ih (upsertRow pk t b) row h

theorem nodup_keys_upsertAll {ρ : Type} (pk : ρ → String) (rows : List ρ) :
    ∀ (t : List ρ), (t.map pk).Nodup → ((upsertAll pk t rows).map pk).Nodup := by
  induction rows with
  | nil => intro t h; exact h
  | cons b bs ih =>
    intro t h
    exact ih (upsertRow pk t b) (nodup_keys_upsertRow pk t b h)

theorem length_upsertAll_of_keys_mem {ρ : Type} (pk : ρ → String) (rows : List ρ) :
    ∀ (t : List ρ), (∀ b ∈ rows, pk b ∈ t.map pk) →
      (upsertAll pk t rows).length = t.length := by
  induction rows with
  | nil => intro t _; rfl
  | cons b bs ih =>
    intro t h
    have hb : pk b ∈ t.map pk := h b (List.mem_cons_self b bs)
    have hkeys : (upsertRow pk t b).map pk = t.map pk := keys_upsertRow_of_mem pk t b hb
    have : (upsertAll pk (upsertRow pk t b) bs).length = (upsertRow pk t b).length := by
      apply ih
      intro c hc
      rw [hkeys]
      exact h c (List.mem_cons_of_mem b hc)
    calc (upsertAll pk t (b :: bs)).length
        = (upsertAll pk (upsertRow pk t b) bs).length := rfl
      _ = (upsertRow pk t b).length := this
      _ = t.length := length_upsertRow_of_mem pk t b hb

/-- C1 — Upsert is idempotent: for every non-empty batch `rows`, running
`_upsert` a second time with the same batch leaves the table with the same
number of rows as the first run did, and the table never holds two rows with
the same identity-column value (given it never did before). -/
theorem upsert_idempotent {ρ : Type} (pk : ρ → String) (t rows : List ρ)
    (hrows : rows ≠ []) (ht : (t.map pk).Nodup) :
    (upsertAll pk (upsertAll pk t rows) rows).length = (upsertAll pk t rows).length ∧
    ((upsertAll pk (upsertAll pk t rows) rows).map pk).Nodup := by
  constructor
  · apply length_upsertAll_of_keys_mem
    intro b hb
    exact batch_mem_keys_upsertAll pk rows t b hb
  · exact nodup_keys_upsertAll pk rows (upsertAll pk t rows)
      (nodup_keys_upsertAll pk rows t ht)

/-- Witness for C1 at a concrete table and batch. -/
theorem upsert_idempotent_witness :
    (upsertAll Prod.fst (upsertAll Prod.fst ([("a", 0)] : List (String × Nat))
        [("k", 1), ("k", 2)]) [("k", 1), ("k", 2)]).length =
      (upsertAll Prod.fst ([("a", 0)] : List (String × Nat)) [("k", 1), ("k", 2)]).length ∧
    ((upsertAll Prod.fst (upsertAll Prod.fst ([("a", 0)] : List (String × Nat))
        [("k", 1), ("k", 2)]) [("k", 1), ("k", 2)]).map Prod.fst).Nodup :=
  upsert_idempotent Prod.fst [("a", 0)] [("k", 1), ("k", 2)] (by decide) (by decide)

theorem filter_replace_eq_single {ρ : Type} (pk : ρ → String) (row : ρ) :
    ∀ (t : List ρ), (t.map pk).Nodup → pk row ∈ t.map pk →
      (t.map fun x => if pk x = pk row then row else x).filter
        (fun x => pk x = pk row) = [row] := by
  intro t
  induction t with
  | nil => intro _ hm; cases hm
  | cons a ts ih =>
    intro hnd hm
    have hnd' : (ts.map pk).Nodup := (List.nodup_cons.mp hnd).2
    have hna : pk a ∉ ts.map pk := (List.nodup_cons.mp hnd).1
    by_cases ha : pk a = pk row
    · have hts : ∀ x ∈ ts, pk x ≠ pk row := by
        intro x hx he
        exact hna (by rw [ha, ← he]; exact List.mem_map_of_mem pk hx)
      have hmap : ts.map (fun x => if pk x = pk row then row else x) = ts :=
        List.map_congr_left (fun x hx => by simp [hts x hx]) |>.trans (List.map_id ts)
      simp only [List.map_cons, ha, if_pos, List.filter_cons]
      rw [if_pos (by simp), hmap]
      have : ts.filter (fun x => pk x = pk row) = [] := by
        apply List.filter_eq_nil_iff.mpr
        intro x hx
        simp [hts x hx]
      simp [this]
    · have hm' : pk row ∈ ts.map pk := by
        rcases List.mem_cons.mp hm with h | h
        · exact absurd h.symm ha
        · exact h
      simp only [List.map_cons, if_neg ha, List.filter_cons]
      rw [if_neg (by simp [ha])]
      exact ih hnd' hm'

theorem filter_upsertRow_self {ρ : Type} (pk : ρ → String) (t : List ρ) (row : ρ)
    (h : (t.map pk).Nodup) :
    (upsertRow pk t row).filter (fun x => pk x = pk row) = [row] := by
  by_cases hm : pk row ∈ t.map pk
  · rw [upsertRow, if_pos ((any_eq_true_iff_mem_keys pk t row).mpr hm)]
    exact filter_replace_eq_single pk row t h hm
  · rw [upsertRow, if_neg (fun hc => hm ((any_eq_true_iff_mem_keys pk t row).mp hc))]
    rw [List.filter_append]
    have h1 : t.filter (fun x => pk x = pk row) = [] := by
      apply List.filter_eq_nil_iff.mpr
      intro x hx hpx
      exact hm (by rw [← of_decide_eq_true hpx]; exact List.mem_map_of_mem pk hx)
    rw [h1]
    simp

/-- C2 — Last-write-wins, full-row replace: after upserting `r1` and then
`r2` with the same identity-key value into a duplicate-free table, exactly
one row carries that key, and it is `r2` in its entirety (every non-key
column holds the later value). -/
theorem upsert_last_write_wins {ρ : Type} (pk : ρ → String) (t : List ρ)
    (r1 r2 : ρ) (ht : (t.map pk).Nodup) (hk : pk r1 = pk r2) :
    (upsertAll pk (upsertAll pk t [r1]) [r2]).filter (fun x => pk x = pk r2) = [r2] := by
  have h1 : ((upsertAll pk t [r1]).map pk).Nodup := nodup_keys_upsertAll pk [r1] t ht
  have : upsertAll pk (upsertAll pk t [r1]) [r2] = upsertRow pk (upsertAll pk t [r1]) r2 := rfl
  rw [this]
  exact filter_upsertRow_self pk (upsertAll pk t [r1]) r2 h1

/-- Witness for C2: key `"K"`, field 1 then 2; one row remains and it is the
later one. -/
theorem upsert_last_write_wins_witness :
    (upsertAll Prod.fst (upsertAll Prod.fst ([("a", 9)] : List (String × Nat))
        [("K", 1)]) [("K", 2)]).filter (fun x => x.fst = "K") = [("K", 2)] :=
  upsert_last_write_wins Prod.fst [("a", 9)] ("K", 1) ("K", 2) (by decide) (by decide)

/-!
## Key-derivation theorems
-/

/-- Unfold a record lookup one binding at a time. -/
theorem pyGet_cons (p : String × String) (r : Rec) (k : String) :
    pyGet (p :: r) k = if p.1 = k then some p.2 else pyGet r k := by
  by_cases h : p.1 = k <;> simp [pyGet, List.find?_cons, h]

/-- The natural-identifier lookup of `recall_pk_from_record`:
`(r.get("nhtsa_id") or r.get("NHTSA_ID") or "").strip()`. -/
def recallNatId (r : Rec) : String :=
  pyStrip (pyOrD (pyOr (pyGet r "nhtsa_id") (pyGet r "NHTSA_ID")) "")

/-- The content string hashed by the recall fallback key. -/
def recallHashBase (r : Rec) : String :=
  pyUpper (pyStrip (pyOrD (pyOr (pyGet r "manufacturer") (pyGet r "make")) ""))
    ++ "|" ++ pyUpper (pyStrip (pyOrD (pyGet r "component") ""))
    ++ "|" ++ pyStrip (pyOrD (pyOr (pyGet r "report_received_date") (pyGet r "report_date")) "")
    ++ "|" ++ pyStrip (pyOrD (pyGet r "subject") "")

/-- C3 — Recall key derivation policy: when the regulator-assigned identifier
(looked up under both casings, Python-`or` chained) is non-empty after
trimming, the key is `"nhtsa:" + trimmed id`; otherwise it is `"hash:"` +
the hex SHA-256 of `manufacturer(upper)|component(upper)|report_date|subject`. -/
theorem recall_pk_spec (r : Rec) :
    (recallNatId r ≠ "" → recall_pk_from_record r = "nhtsa:" ++ recallNatId r) ∧
    (recallNatId r = "" → recall_pk_from_record r = "hash:" ++ sha256_hex (recallHashBase r)) := by
  constructor <;> intro h <;>
    simp only [recall_pk_from_record, recallNatId, recallHashBase] at h ⊢ <;>
    simp [h]

/-- Witness for C3: one record keyed by its natural id, one by the content
hash. -/
theorem recall_pk_spec_witness :
    recall_pk_from_record [("nhtsa_id", " 24V123 ")] = "nhtsa:24V123" ∧
    recall_pk_from_record [("manufacturer", " Tesla "), ("component", "brakes")] =
      "hash:" ++ sha256_hex "TESLA|BRAKES||" := by
  constructor
  · have h := (recall_pk_spec [("nhtsa_id", " 24V123 ")]).1 (by decide)
    rw [h]; decide
  · have h := (recall_pk_spec [("manufacturer", " Tesla "), ("component", "brakes")]).2
      (by decide)
    rw [h]
    have e : recallHashBase [("manufacturer", " Tesla "), ("component", "brakes")] =
        "TESLA|BRAKES||" := by decide
    rw [e]

/-- A `hash:`-prefixed key is never an `odi:`-prefixed key. -/
theorem hash_key_ne_odi_key (s t : String) : "hash:" ++ s ≠ "odi:" ++ t := by
  intro h
  have hd : (("hash:" ++ s).data).head? = (("odi:" ++ t).data).head? := by rw [h]
  have hl : (("hash:" ++ s).data).head? = some 'h' := rfl
  have hr : (("odi:" ++ t).data).head? = some 'o' := rfl
  rw [hl, hr] at hd
  simp at hd

/-- The ODI-number lookup of `complaint_pk_from_record`: the Python `or`
chain over the four field-name variants, stringified and trimmed. -/
def complaintNatId (r : Rec) : String :=
  pyStrip (pyOrD
    (pyOr (pyOr (pyOr (pyGet r "ODINumber") (pyGet r "odi_number"))
      (pyGet r "odiNumber")) (pyGet r "complaint_number")) "")

/-- The content string hashed by the complaint fallback key. -/
def complaintHashBase (r : Rec) : String :=
  pyUpper (pyStrip (pyOrD (pyOr (pyGet r "Make") (pyGet r "make")) ""))
    ++ "|" ++ pyUpper (pyStrip (pyOrD (pyOr (pyGet r "Model") (pyGet r "model")) ""))
    ++ "|" ++ pyStrip (pyOrD (pyOr (pyOr (pyGet r "ModelYear") (pyGet r "model_year"))
      (pyGet r "Year")) "")
    ++ "|" ++ pyUpper (pyStrip (pyOrD (pyOr (pyGet r "Component") (pyGet r "component")) ""))
    ++ "|" ++ pyStrip (pyOrD (pyOr (pyGet r "DateReceived") (pyGet r "date_received")) "")
    ++ "|" ++ pyStrip (pyOrD (pyOr (pyOr (pyGet r "Summary") (pyGet r "summary"))
      (pyGet r "Description")) "")

/-- C4, counterexample — the claim ties the `odi:` branch to field *presence*
("only when no such field is present does it fall back").  The record
`{"ODINumber": ""}` has the highest-priority variant present with trimmed
value `""`, so the claim demands the key `"odi:" + ""`; the code skips the
falsy value and returns a `hash:` key instead. -/
theorem complaint_pk_counterexample :
    hasKey [("ODINumber", "")] "ODINumber" = true ∧
    first_present_field [("ODINumber", "")]
      ["ODINumber", "odi_number", "odiNumber", "complaint_number"] = some "ODINumber" ∧
    complaint_pk_from_record [("ODINumber", "")] ≠
      "odi:" ++ pyStrip "" := by
  refine ⟨by decide, by decide, ?_⟩
  have h : complaint_pk_from_record [("ODINumber", "")] =
      "hash:" ++ sha256_hex (complaintHashBase [("ODINumber", "")]) := by
    simp only [complaint_pk_from_record, complaintHashBase]
    simp [show pyStrip (pyOrD (pyOr (pyOr (pyOr (pyGet [("ODINumber", "")] "ODINumber")
      (pyGet [("ODINumber", "")] "odi_number")) (pyGet [("ODINumber", "")] "odiNumber"))
      (pyGet [("ODINumber", "")] "complaint_number")) "") = "" from by decide]
  rw [h]
  exact hash_key_ne_odi_key _ _

/-- C4, amended — Complaint key derivation policy: the code chains the four
variants with Python `or`, so the selected value is the highest-priority
*truthy* (present and non-empty) one, and the `odi:` branch is taken only
when that value is also non-blank after trimming; otherwise (all variants
absent, empty, or the selected value whitespace-only) the key falls back to
`"hash:"` + SHA-256 over
`make(upper)|model(upper)|year|component(upper)|received_date|summary`. -/
theorem complaint_pk_amended (r : Rec) :
    (complaintNatId r ≠ "" → complaint_pk_from_record r = "odi:" ++ complaintNatId r) ∧
    (complaintNatId r = "" →
      complaint_pk_from_record r = "hash:" ++ sha256_hex (complaintHashBase r)) := by
  constructor <;> intro h <;>
    simp only [complaint_pk_from_record, complaintNatId, complaintHashBase] at h ⊢ <;>
    simp [h]

/-- Witness for the amended C4: a natural-keyed record (the id taken from a
lower-priority variant past an empty higher-priority one) and a hash-keyed
record. -/
theorem complaint_pk_amended_witness :
    complaint_pk_from_record [("ODINumber", ""), ("odi_number", " 11506106 ")] =
      "odi:11506106" ∧
    complaint_pk_from_record [("Make", "honda"), ("ModelYear", "2020")] =
      "hash:" ++ sha256_hex "HONDA||2020|||" := by
  constructor
  · have h := (complaint_pk_amended [("ODINumber", ""), ("odi_number", " 11506106 ")]).1
      (by decide)
    rw [h]; decide
  · have h := (complaint_pk_amended [("Make", "honda"), ("ModelYear", "2020")]).2 (by decide)
    rw [h]
    have e : complaintHashBase [("Make", "honda"), ("ModelYear", "2020")] =
        "HONDA||2020|||" := by decide
    rw [e]

/-- Dict-lookup is invariant under reordering the bindings (keys unique). -/
theorem pyGet_eq_of_perm (k : String) :
    ∀ {r1 r2 : Rec}, r1.Perm r2 → (r1.map Prod.fst).Nodup →
      pyGet r1 k = pyGet r2 k := by
  intro r1 r2 h
  induction h with
  | nil => intro _; rfl
  | @cons x l1 l2 p ih =>
    intro nd
    have ndc : (x.1 :: l1.map Prod.fst).Nodup := by
      simpa only [List.map_cons] using nd
    have nd' := (List.nodup_cons.mp ndc).2
    rw [pyGet_cons, pyGet_cons]
    by_cases hx : x.1 = k
    · simp [hx]
    · simp [hx, ih nd']
  | swap x y l =>
    intro nd
    have ndc : (y.1 :: x.1 :: l.map Prod.fst).Nodup := by
      simpa only [List.map_cons] using nd
    rw [pyGet_cons, pyGet_cons, pyGet_cons, pyGet_cons]
    by_cases hy : y.1 = k <;> by_cases hx : x.1 = k
    · exfalso
      have hne : y.1 ≠ x.1 := by
        have hm := (List.nodup_cons.mp ndc).1
        simp only [List.mem_cons] at hm
        exact fun he => hm (Or.inl he)
      exact hne (hy.trans hx.symm)
    · simp [hy, hx]
    · simp [hy, hx]
    · simp [hy, hx]
  | trans p1 p2 ih1 ih2 =>
    intro nd
    have nd2 := ((p1.map Prod.fst).nodup_iff).mp nd
    exact (ih1 nd).trans (ih2 nd2)

/-- C5 — Key derivation is deterministic and insensitive to field order:
deriving a key twice from the same record gives identical strings, and a
record with the same bindings in any other order (keys unique, as in a
Python dict) derives the same key, for both categories. -/
theorem derive_key_deterministic (r1 r2 : Rec) (hperm : r1.Perm r2)
    (hnd : (r1.map Prod.fst).Nodup) :
    recall_pk_from_record r1 = recall_pk_from_record r1 ∧
    complaint_pk_from_record r1 = complaint_pk_from_record r1 ∧
    recall_pk_from_record r1 = recall_pk_from_record r2 ∧
    complaint_pk_from_record r1 = complaint_pk_from_record r2 := by
  have hget : ∀ k, pyGet r1 k = pyGet r2 k := fun k => pyGet_eq_of_perm k hperm hnd
  refine ⟨rfl, rfl, ?_, ?_⟩
  · simp only [recall_pk_from_record, hget]
  · simp only [complaint_pk_from_record, hget]

/-- Witness for C5 at a two-field record and its reversal. -/
theorem derive_key_deterministic_witness :
    recall_pk_from_record [("nhtsa_id", "X7"), ("ODINumber", "7")] =
      recall_pk_from_record [("ODINumber", "7"), ("nhtsa_id", "X7")] ∧
    complaint_pk_from_record [("nhtsa_id", "X7"), ("ODINumber", "7")] =
      complaint_pk_from_record [("ODINumber", "7"), ("nhtsa_id", "X7")] := by
  have h := derive_key_deterministic [("nhtsa_id", "X7"), ("ODINumber", "7")]
    [("ODINumber", "7"), ("nhtsa_id", "X7")]
    (List.Perm.swap ("ODINumber", "7") ("nhtsa_id", "X7") [])
    (by decide)
  exact ⟨h.2.2.1, h.2.2.2⟩

/-!
## Where-clause and pagination theorems
-/

/-- C6, counterexample — for a probe record with no make/manufacturer
candidate and no date-field candidate, the claim demands a query with no
make bound and no date bound; the code omits the date bounds but always
emits the make predicate, defaulting its field name to `make`. -/
theorem where_clause_counterexample :
    (∀ f ∈ "make" :: "manufacturer" :: RECALLS_DATE_FIELDS,
      hasKey [("foo", "bar")] f = false) ∧
    extract_recalls_filters [[("foo", "bar")]] "TESLA"
      (some "2024-01-01") (some "2024-12-31") = ["upper(make) LIKE 'TESLA%'"] ∧
    extract_recalls_where [[("foo", "bar")]] "TESLA"
      (some "2024-01-01") (some "2024-12-31") ≠ "" :=
  ⟨by decide, by decide, by decide⟩

/-- C6, amended — when the probe's first record carries no date-field
candidate, every date bound is omitted from the constructed query, which
then consists of the make predicate alone; and when no make/manufacturer
candidate is present either, that predicate falls back to the field name
`make` (the make bound is always present, never omitted). -/
theorem where_clause_amended (p0 : Rec) (rest : List Rec) (make : String)
    (sd ed : Option String)
    (hd : ∀ f ∈ RECALLS_DATE_FIELDS, hasKey p0 f = false) :
    extract_recalls_filters (p0 :: rest) make sd ed =
      [makeBound (detectMakeField (p0 :: rest)) make] ∧
    (hasKey p0 "manufacturer" = false → detectMakeField (p0 :: rest) = "make") := by
  constructor
  · have hdf : detectDateField (p0 :: rest) = none := by
      simp only [detectDateField, first_present_field]
      rw [List.find?_eq_none]
      intro f hf
      simp [hd f hf]
    simp [extract_recalls_filters, build_where_filters, hdf, pyTruthy]
  · intro hm
    simp [detectMakeField, hm]

/-- Witness for the amended C6 at a candidate-free probe record. -/
theorem where_clause_amended_witness :
    extract_recalls_filters [[("foo", "bar")]] "TESLA"
        (some "2024-01-01") (some "2024-12-31") =
      [makeBound (detectMakeField [[("foo", "bar")]]) "TESLA"] ∧
    (hasKey [("foo", "bar")] "manufacturer" = false →
      detectMakeField [[("foo", "bar")]] = "make") :=
  where_clause_amended [("foo", "bar")] [] "TESLA"
    (some "2024-01-01") (some "2024-12-31") (by decide)

/-- C7 — Pagination terminates on the first empty page and collects the
prior pages in order: a source with exactly two full pages followed by an
empty page yields exactly `2 * PAGE_SIZE` records, page 0 then page 1. -/
theorem fetch_socrata_two_pages {α : Type} (source : Nat → List α) (fuel : Nat)
    (h0 : (source 0).length = PAGE_SIZE) (h1 : (source PAGE_SIZE).length = PAGE_SIZE)
    (h2 : source (2 * PAGE_SIZE) = []) (hfuel : 3 ≤ fuel) :
    fetch_socrata source none fuel = source 0 ++ source PAGE_SIZE ∧
    (fetch_socrata source none fuel).length = 2 * PAGE_SIZE := by
  obtain ⟨m, rfl⟩ : ∃ m, fuel = m + 3 := ⟨fuel - 3, by omega⟩
  have e0 : (source 0).isEmpty = false := by
    rw [List.isEmpty_eq_false_iff_exists_mem]
    rcases (source 0).exists_mem_of_length_pos (by rw [h0]; decide) with ⟨a, ha⟩
    exact ⟨a, ha⟩
  have e1 : (source PAGE_SIZE).isEmpty = false := by
    rw [List.isEmpty_eq_false_iff_exists_mem]
    rcases (source PAGE_SIZE).exists_mem_of_length_pos (by rw [h1]; decide) with ⟨a, ha⟩
    exact ⟨a, ha⟩
  have key : fetch_socrata source none (m + 3) = source 0 ++ source PAGE_SIZE := by
    show fetchLoop source none (m + 3) 0 = _
    rw [fetchLoop]
    simp only [e0, Bool.false_eq_true, if_false, Nat.zero_add]
    rw [fetchLoop]
    simp only [e1, Bool.false_eq_true, if_false]
    rw [fetchLoop]
    have : source (PAGE_SIZE + PAGE_SIZE) = [] := by
      rw [show PAGE_SIZE + PAGE_SIZE = 2 * PAGE_SIZE by omega]
      exact h2
    simp [this]
  refine ⟨key, ?_⟩
  rw [key, List.length_append, h0, h1]
  omega

/-- Witness for C7: two constant full pages, then the empty page. -/
theorem fetch_socrata_two_pages_witness :
    fetch_socrata (fun o => if o < 2 * PAGE_SIZE then List.replicate PAGE_SIZE 0 else [])
        none 3 =
      (fun o => if o < 2 * PAGE_SIZE then List.replicate PAGE_SIZE (0 : Nat) else []) 0 ++
      (fun o => if o < 2 * PAGE_SIZE then List.replicate PAGE_SIZE (0 : Nat) else [])
        PAGE_SIZE ∧
    (fetch_socrata (fun o => if o < 2 * PAGE_SIZE then List.replicate PAGE_SIZE (0 : Nat)
        else []) none 3).length = 2 * PAGE_SIZE :=
  fetch_socrata_two_pages
    (fun o => if o < 2 * PAGE_SIZE then List.replicate PAGE_SIZE (0 : Nat) else [])
    3
    (by norm_num [PAGE_SIZE])
    (by norm_num [PAGE_SIZE])
    (by norm_num [PAGE_SIZE])
    (by omega)

/-!
## Date-degradation, skip-path and mapper theorems
-/

/-- C8 — Date parsing degrades to null and never raises: a date-typed value
maps to its date, any other value is stringified, trimmed, truncated to ten
characters and strictly parsed as `YYYY-MM-DD` (`strptimeYmd`), with every
failure yielding `none`; in particular `"not-a-date"` maps to `none` and
`"2024-03-15T00:00:00.000"` to 2024-03-15.  Totality of `parse_date` is the
no-exception guarantee. -/
theorem parse_date_spec (v : PyVal) :
    (parse_date v = match v with
      | .vNone => none
      | .vDate d => some d
      | .vDateTime dt => some dt.toDate
      | .vStr s => strptimeYmd (pyTake (pyStrip s) 10)
      | .vInt n => strptimeYmd (pyTake (pyStrip (toString n)) 10)) ∧
    parse_date (.vStr "not-a-date") = none ∧
    parse_date (.vStr "2024-03-15T00:00:00.000") = some ⟨2024, 3, 15⟩ := by
  refine ⟨?_, by decide, by decide⟩
  cases v with
  | vNone => rfl
  | vDate d => rfl
  | vDateTime dt => rfl
  | vStr s =>
    simp only [parse_date, pyStr]
    by_cases h : pyStrip s = ""
    · rw [if_pos h, h]; decide
    · rw [if_neg h]
  | vInt n =>
    simp only [parse_date, pyStr]
    by_cases h : pyStrip (toString n) = ""
    · rw [if_pos h, h]; decide
    · rw [if_neg h]

/-- The model / model-year configuration value is absent or blank. -/
def blankOrAbsent (o : Option String) : Prop :=
  o = none ∨ ∃ v, o = some v ∧ pyStrip v = ""

theorem env_lookup_eq_none (env : String → Option String) (n : String)
    (h : blankOrAbsent (env n)) : env_lookup env n none = none := by
  rcases h with h | ⟨v, hv, hb⟩
  · simp [env_lookup, h]
  · simp [env_lookup, hv, hb]

/-- C9 — Complaint ingestion without model/model-year configuration is
skipped, not an error: when either value is absent or blank, `run_ingest`
returns (`Except.ok`: nothing raised) a report with
`complaints_skipped = true` and zero complaints extracted/loaded, and the
complaint-fetch call site is never reached (the `false` flag). -/
theorem run_ingest_skips_complaints (env : String → Option String) (now : Nat)
    (recalls : List Rec) (fetchByVehicle : String → String → Int → List Rec)
    (h : blankOrAbsent (env "RECALLWATCH_MODEL") ∨
      blankOrAbsent (env "RECALLWATCH_MODEL_YEAR")) :
    run_ingest env now recalls fetchByVehicle = Except.ok
      ({ make := env_lookup env "RECALLWATCH_MAKE" (some "TESLA")
         start_date := env_lookup env "RECALLWATCH_START" (some "2024-01-01")
         end_date := env_lookup env "RECALLWATCH_END" (some "2024-12-31")
         recalls_extracted := recalls.length
         recalls_loaded := recalls.length
         complaints_extracted := 0
         complaints_loaded := 0
         complaints_skipped := true
         errors := [] }, false) := by
  have hcond : (!pyTruthy (env_lookup env "RECALLWATCH_MODEL" none)
      || !pyTruthy (env_lookup env "RECALLWATCH_MODEL_YEAR" none)) = true := by
    rcases h with h | h
    · rw [env_lookup_eq_none env _ h]; simp [pyTruthy]
    · rw [env_lookup_eq_none env _ h]; simp [pyTruthy]
  simp [run_ingest, hcond, load_count]

/-- Witness for C9: empty environment, no recalls, inert fetch. -/
theorem run_ingest_skips_complaints_witness :
    run_ingest (fun _ => none) 0 [] (fun _ _ _ => []) = Except.ok
      ({ make := some "TESLA"
         start_date := some "2024-01-01"
         end_date := some "2024-12-31"
         recalls_extracted := 0
         recalls_loaded := 0
         complaints_extracted := 0
         complaints_loaded := 0
         complaints_skipped := true
         errors := [] }, false) := by
  have h := run_ingest_skips_complaints (fun _ => none) 0 [] (fun _ _ _ => [])
    (Or.inl (Or.inl rfl))
  rw [h]
  rfl

/-- C10 — Every mapped recall row has the constant source `"socrata"` and
null `model` and `model_year` columns, whatever the raw record contains. -/
theorem map_recall_row_constants (now : Nat) (r : Rec) :
    (map_recall_row now r).source = "socrata" ∧
    (map_recall_row now r).model = none ∧
    (map_recall_row now r).model_year = none :=
  ⟨rfl, rfl, rfl⟩
